import Mathlib

/-!
Shallow embedding of `src/writing_bot.py` (the `Briefly` writing-analysis
engine): a tiny total regular-expression engine mirroring the Python `re`
constructs the source uses, the eleven checkers and suggesters, the rule
registry, `analyze_text` and `generate_improved_text`, together with
theorems settling the specification's claims.
-/

namespace Briefly

/-! ## Python string primitives -/

/-- Python whitespace for `str.split()` / `str.strip()` / `\s`. -/
def isPySpace (c : Char) : Bool :=
  c = ' ' || c = '\t' || c = '\n' || c = '\r' || c = '\x0b' || c = '\x0c'

/-- Python `\w` (ASCII range): letter, digit or underscore. -/
def isWordChar (c : Char) : Bool :=
  c.isAlphanum || c = '_'

/-- `text.split(sep)` for a one-character separator: keeps empty pieces. -/
def splitOnChar (sep : Char) : List Char → List Char → List (List Char)
  | acc, [] => [acc.reverse]
  | acc, c :: rest =>
    if c = sep then acc.reverse :: splitOnChar sep [] rest
    else splitOnChar sep (c :: acc) rest

/-- `text.split('\n\n')`: split on a blank line (two consecutive newlines). -/
def splitBlank : List Char → List Char → List (List Char)
  | acc, '\n' :: '\n' :: rest => acc.reverse :: splitBlank [] rest
  | acc, c :: rest => splitBlank (c :: acc) rest
  | acc, [] => [acc.reverse]

/-- Words of `text.split()` (no argument): whitespace-run splitting, no empties. -/
def pyWordsAux : List Char → List Char → List (List Char)
  | acc, [] => if acc.isEmpty then [] else [acc.reverse]
  | acc, c :: rest =>
    if isPySpace c then
      if acc.isEmpty then pyWordsAux [] rest else acc.reverse :: pyWordsAux [] rest
    else pyWordsAux (c :: acc) rest

/-- `text.split()` as Python computes it. -/
def pyWords (s : String) : List String :=
  (pyWordsAux [] s.data).map List.asString

/-- `len(text.split())`. -/
def wordCount (s : String) : Nat :=
  (pyWordsAux [] s.data).length

/-- `text.split('.')`. -/
def pySplitDot (s : String) : List String :=
  (splitOnChar '.' [] s.data).map List.asString

/-- `text.split('\n\n')`. -/
def pySplitPara (s : String) : List String :=
  (splitBlank [] s.data).map List.asString

/-- `str.strip()`: remove leading and trailing Python whitespace. -/
def pyStrip (s : String) : String :=
  (((s.data.dropWhile isPySpace).reverse.dropWhile isPySpace).reverse).asString

/-- `str.lower()` (character-wise lowering, as Python does for ASCII). -/
def pyLower (s : String) : String :=
  (s.data.map Char.toLower).asString

/-- `s[:n]` on a Python string. -/
def pyTake (n : Nat) (s : String) : String :=
  (s.data.take n).asString

/-- `text.endswith('.')`. -/
def pyEndsWithDot (s : String) : Bool :=
  s.data.getLast? = some '.'

/-! ## A total regular-expression engine

Covers exactly the constructs the source's patterns use: literals,
the classes `\w` `\d` `\s` and `.`, concatenation, alternation (preferring
the left branch, as Python's backtracking does), greedy star, `\b`,
capturing groups, and the two lookarounds `(?=r)` and `(?!r)`. -/

inductive RE where
  | fail : RE
  | eps : RE
  | lit : Char → RE
  | wordc : RE
  | digitc : RE
  | spacec : RE
  | anyc : RE
  | cat : RE → RE → RE
  | alt : RE → RE → RE
  | star : RE → RE
  | bnd : RE
  | cap : RE → RE
  | nla : RE → RE
  | pla : RE → RE
deriving Repr

/-- One way a pattern can match a prefix of the remaining input:
the character just before the new position (for `\b`), the unconsumed
suffix, and the captured groups, in group order. -/
structure MRes where
  prev : Option Char
  rest : List Char
  caps : List (List Char)
deriving Repr

/-- Character comparison, case-insensitive when `ci` is set (`re.IGNORECASE`). -/
def chrEq (ci : Bool) (a b : Char) : Bool :=
  if ci then a.toLower = b.toLower else a = b

/-- Is there a `\b` word boundary between `prev` and the next character? -/
def atBoundary (prev : Option Char) (next : Option Char) : Bool :=
  (match prev with | none => false | some c => isWordChar c) ≠
  (match next with | none => false | some c => isWordChar c)

/-- One fuel level of the matcher: structural recursion over the pattern,
with `next` handling the star continuation at the next-lower fuel level.
Matches are listed in backtracking preference order (first alternative
first, star greedy), so the head of the result is the match Python's
engine reports. -/
def reMS (ci : Bool) (next : RE → Option Char → List Char → List MRes) :
    RE → Option Char → List Char → List MRes
  | .fail, _, _ => []
  | .eps, prev, s => [⟨prev, s, []⟩]
  | .lit c, _, s =>
    match s with
    | [] => []
    | x :: xs => if chrEq ci x c then [⟨some x, xs, []⟩] else []
  | .wordc, _, s =>
    match s with
    | [] => []
    | x :: xs => if isWordChar x then [⟨some x, xs, []⟩] else []
  | .digitc, _, s =>
    match s with
    | [] => []
    | x :: xs => if x.isDigit then [⟨some x, xs, []⟩] else []
  | .spacec, _, s =>
    match s with
    | [] => []
    | x :: xs => if isPySpace x then [⟨some x, xs, []⟩] else []
  | .anyc, _, s =>
    match s with
    | [] => []
    | x :: xs => if x ≠ '\n' then [⟨some x, xs, []⟩] else []
  | .cat a b, prev, s =>
    (reMS ci next a prev s).flatMap fun r1 =>
      (reMS ci next b r1.prev r1.rest).map fun r2 =>
        ⟨r2.prev, r2.rest, r1.caps ++ r2.caps⟩
  | .alt a b, prev, s => reMS ci next a prev s ++ reMS ci next b prev s
  | .star a, prev, s =>
    (((reMS ci next a prev s).filter fun r1 =>
        r1.rest.length < s.length).flatMap fun r1 =>
      (next (.star a) r1.prev r1.rest).map fun r2 =>
        ⟨r2.prev, r2.rest, r1.caps ++ r2.caps⟩) ++ [⟨prev, s, []⟩]
  | .bnd, prev, s =>
    if atBoundary prev s.head? then [⟨prev, s, []⟩] else []
  | .cap a, prev, s =>
    (reMS ci next a prev s).map fun r1 =>
      ⟨r1.prev, r1.rest, (s.take (s.length - r1.rest.length)) :: r1.caps⟩
  | .nla a, prev, s =>
    if (reMS ci next a prev s).isEmpty then [⟨prev, s, []⟩] else []
  | .pla a, prev, s =>
    if (reMS ci next a prev s).isEmpty then [] else [⟨prev, s, []⟩]

/-- All matches of `r` against a prefix of `s`. `fuel` bounds star
unrolling; every star iteration must consume input (see the filter in
`reMS`), so `s.length + 1` fuel is always enough for complete results. -/
def reM (ci : Bool) : Nat → RE → Option Char → List Char → List MRes
  | 0 => reMS ci fun _ prev s => [⟨prev, s, []⟩]
  | fuel + 1 => reMS ci (reM ci fuel)

/-- Search helper: does `r` match starting at some position of `s`, given the
character preceding `s`? Tries the leftmost position first, as `re.search`. -/
def searchFrom (ci : Bool) (r : RE) : Option Char → List Char → Bool
  | prev, [] => !(reM ci 1 r prev []).isEmpty
  | prev, c :: rest =>
    !(reM ci (rest.length + 2) r prev (c :: rest)).isEmpty ||
      searchFrom ci r (some c) rest

/-- `re.search(r, s)` as a Boolean (`ci` = `re.IGNORECASE`). -/
def reSearch (ci : Bool) (r : RE) (s : String) : Bool :=
  searchFrom ci r none s.data

/-- `re.match(r, s)`: anchored at the start of the string. -/
def reMatchStart (ci : Bool) (r : RE) (s : String) : Bool :=
  !(reM ci (s.data.length + 1) r none s.data).isEmpty

/-- `re.findall(r, s)` as the list of each match's captured groups: scan
left to right, resume after each match (advancing one character past a
zero-width match, as Python does). `fuel` only guards termination;
`s.length + 1` is always enough. -/
def findAllFrom (ci : Bool) (r : RE) : Nat → Option Char → List Char → List (List String)
  | 0, _, _ => []
  | _ + 1, prev, [] =>
    match reM ci 1 r prev [] with
    | [] => []
    | res :: _ => [res.caps.map List.asString]
  | fuel + 1, prev, c :: rest =>
    match reM ci (rest.length + 2) r prev (c :: rest) with
    | [] => findAllFrom ci r fuel (some c) rest
    | res :: _ =>
      if res.rest.length < rest.length + 1 then
        res.caps.map List.asString :: findAllFrom ci r fuel res.prev res.rest
      else res.caps.map List.asString :: findAllFrom ci r fuel (some c) rest

/-- `re.findall(r, s)`, each match as its group list. -/
def reFindAll (ci : Bool) (r : RE) (s : String) : List (List String) :=
  findAllFrom ci r (s.data.length + 1) none s.data

/-- `len(re.findall(r, s))`. -/
def reCount (ci : Bool) (r : RE) (s : String) : Nat :=
  (reFindAll ci r s).length

/-! ### Pattern construction helpers -/

/-- A literal string as a pattern. -/
def RE.str (s : String) : RE :=
  s.data.foldr (fun c r => RE.cat (RE.lit c) r) RE.eps

/-- An alternation of literal strings, tried in order. -/
def RE.strs (l : List String) : RE :=
  l.foldr (fun s r => RE.alt (RE.str s) r) RE.fail

/-- Concatenation of a pattern list. -/
def RE.seq (l : List RE) : RE :=
  l.foldr RE.cat RE.eps

/-- `\w+`. -/
def wplus : RE := RE.cat RE.wordc (RE.star RE.wordc)

/-- `\d+`. -/
def dplus : RE := RE.cat RE.digitc (RE.star RE.digitc)

/-- `\s+`. -/
def splus : RE := RE.cat RE.spacec (RE.star RE.spacec)

/-- `.*`. -/
def dotstar : RE := RE.star RE.anyc

/-- `r?`. -/
def qmark (r : RE) : RE := RE.alt r RE.eps

/-- An alternation of a pattern list, tried in order. -/
def RE.alts (l : List RE) : RE :=
  l.foldr RE.alt RE.fail

/-- `\bphrase\b`, the shape of every redundancy-table pattern. -/
def wordRe (phrase : String) : RE :=
  RE.seq [.bnd, RE.str phrase, .bnd]

/-- Python `repr` of a simple string (as it appears inside a formatted
tuple): single quotes, or double quotes when the string holds one. -/
def pyRepr (s : String) : String :=
  if s.data.contains '\'' then "\"" ++ s ++ "\"" else "'" ++ s ++ "'"

/-- What `f-string` interpolation prints for `re.findall(...)[0]`: the bare
group text when the pattern has one group, a formatted tuple otherwise. -/
def pyGroupText (caps : List String) : String :=
  match caps with
  | [g] => g
  | l => "(" ++ String.intercalate ", " (l.map pyRepr) ++ ")"

/-! ## The source's patterns, rule by rule -/

/-- `_check_super_specific_how`'s `vague_patterns`. -/
def vaguePatterns : List RE :=
  [RE.seq [.bnd, .cap (.strs ["you should", "it's important to", "make sure to"]),
     splus, .cap (.strs ["be", "have", "do", "get", "use"]), splus, wplus],
   RE.seq [.bnd, .cap (.strs ["focus on", "prioritize", "emphasize"]),
     splus, wplus, splus, .cap (.strs ["more", "better"])],
   RE.seq [.bnd, .cap (.strs ["improve", "enhance", "optimize"]),
     splus, wplus, splus, .cap (.strs ["in order to", "to"]), splus, wplus]]

/-- `_check_super_specific_how`'s `specific_indicators`. -/
def specificIndicators : List RE :=
  [RE.seq [.bnd, .cap (.strs ["here's how", "this is how", "step 1", "first,",
     "second,", "then", "next"])],
   RE.seq [.bnd, .cap (.strs ["specifically", "exactly", "precisely"])],
   RE.seq [.bnd, .cap (.strs ["example", "instance", "case study"])],
   RE.seq [dplus, splus, .cap (.strs ["minutes", "hours", "days", "steps"])]]

/-- `_check_backstory`'s `backstory_indicators`. -/
def backstoryIndicators : List RE :=
  [RE.seq [.bnd, .cap (.strs ["let me", "i want to", "first, let me",
     "to begin with", "in order to understand"])],
   RE.seq [.bnd, .cap (.strs ["context", "background", "history", "overview",
     "introduction"])],
   RE.seq [.bnd, .cap (.strs ["going to", "about to", "planning to",
     "will be talking about"])]]

/-- `\b(pros?|advantages?)\b.*\b(cons?|disadvantages?)\b`. -/
def prosConsRe : RE :=
  RE.seq [.bnd, .cap (.alt (.cat (RE.str "pro") (qmark (.lit 's')))
                          (.cat (RE.str "advantage") (qmark (.lit 's')))), .bnd,
    dotstar,
    .bnd, .cap (.alt (.cat (RE.str "con") (qmark (.lit 's')))
                    (.cat (RE.str "disadvantage") (qmark (.lit 's')))), .bnd]

/-- `_check_clear_recommendations`'s `unclear_patterns`. -/
def unclearPatterns : List RE :=
  [RE.seq [.bnd, .cap (.strs ["you might want to", "it could be", "perhaps",
     "maybe", "consider"])],
   RE.seq [.bnd, .cap (.strs ["on one hand", "on the other hand"]), .bnd,
     dotstar, .bnd, .cap (.strs ["on the other hand", "however", "but"]), .bnd],
   RE.seq [.bnd, .cap (.strs ["pros and cons", "advantages and disadvantages"]),
     .bnd, .nla (RE.cat dotstar (RE.str "recommend"))]]

/-- `\b(recommend|suggest|think|believe)\b`. -/
def recVerbRe : RE :=
  RE.seq [.bnd, .cap (.strs ["recommend", "suggest", "think", "believe"]), .bnd]

/-- `_check_bottom_line_first`'s `conclusion_indicators`. -/
def conclusionIndicators : List RE :=
  [RE.seq [.bnd, .cap (.strs ["recommend", "suggest", "conclude", "believe",
     "think", "decision"])],
   RE.seq [.bnd, .cap (.strs ["in summary", "to summarize", "bottom line",
     "the point is"])],
   RE.seq [.bnd, .cap (.strs ["action item", "next steps", "what to do"])]]

/-- `_check_adequate_context`'s `context_indicators`. -/
def contextIndicators : List RE :=
  [RE.seq [.bnd, .cap (.strs ["because", "since", "given that", "considering",
     "due to"])],
   RE.seq [.bnd, .cap (.strs ["context", "background", "premise", "assumption"])],
   RE.seq [.bnd, .cap (.strs ["for example", "for instance", "such as"])]]

/-- `_check_sentence_structure`'s `weak_openings` (used with `re.match`,
so anchored at the sentence start; the `^` is part of that anchoring). -/
def weakOpenings : List RE :=
  [RE.seq [RE.str "there ", .cap (.strs ["is", "are", "was", "were"]), .bnd],
   RE.seq [RE.str "it ", .cap (.strs ["is", "was"]), .bnd, dotstar, RE.str "that"],
   RE.seq [RE.str "what ", .cap (.strs ["is", "was"]), .bnd],
   RE.seq [RE.str "the fact that", .bnd]]

/-- `\b(it|this|that|these|those)\b`. -/
def pronounRe : RE :=
  RE.seq [.bnd, .cap (.strs ["it", "this", "that", "these", "those"]), .bnd]

/-- `\b(it|this|that|these|those)\b.*\b(it|this|that|these|those)\b`. -/
def pronounPairRe : RE :=
  RE.seq [.bnd, .cap (.strs ["it", "this", "that", "these", "those"]), .bnd,
    dotstar,
    .bnd, .cap (.strs ["it", "this", "that", "these", "those"]), .bnd]

/-- `_check_active_voice`'s `passive_patterns` (matched case-sensitively
against the already-lowercased sentence). -/
def passivePatterns : List RE :=
  [RE.seq [.bnd, .cap (.strs ["was", "were", "is", "are", "been", "being"]),
     splus, wplus, RE.str "ed", .bnd],
   RE.seq [.bnd, .cap (.strs ["was", "were", "is", "are"]),
     splus, wplus, splus, RE.str "by", splus, wplus],
   RE.seq [.bnd, .cap (.strs ["it was", "they were", "there was", "there were"]),
     splus, wplus, RE.str "ed", .bnd]]

/-- `_check_logical_flow`'s `transition_indicators`. -/
def transitionIndicators : List RE :=
  [RE.seq [.bnd, .cap (.strs ["first", "second", "third", "next", "then",
     "furthermore", "moreover", "however", "therefore", "consequently"]), .bnd]]

/-- `\b(1\.|2\.|3\.|first|second|third|-|\*)\b`. -/
def structureRe : RE :=
  RE.seq [.bnd, .cap (.strs ["1.", "2.", "3.", "first", "second", "third",
    "-", "*"]), .bnd]

/-- `_check_logical_flow`'s `topic_indicators` (note the nested group in
`this (section|chapter|part)`). -/
def topicIndicators : List RE :=
  [RE.seq [.bnd, .cap (RE.alts [RE.str "in this", RE.str "we will",
     RE.str "the main",
     RE.cat (RE.str "this ") (.cap (.strs ["section", "chapter", "part"])),
     RE.str "to summarize", RE.str "in conclusion"]), .bnd],
   RE.seq [.bnd, .cap (.strs ["first", "next", "then", "finally", "overall",
     "in summary"]), .bnd]]

/-- `_check_conciseness`'s `redundancies` table: `\bphrase\b` with its
preferred replacement. -/
def redundancies : List (String × String) :=
  [("absolutely essential", "essential"),
   ("completely finished", "finished"),
   ("first and foremost", "first"),
   ("if and when", "when"),
   ("in order to", "to"),
   ("in the event that", "if"),
   ("due to the fact that", "because"),
   ("for the purpose of", "to"),
   ("previous experience", "experience"),
   ("advance planning", "planning"),
   ("close proximity", "near")]

/-- `_check_conciseness`'s `filler_patterns`. -/
def fillerPatterns : List RE :=
  [RE.seq [.bnd, .cap (.strs ["very", "really", "quite", "rather", "somewhat",
     "quite a bit"]), .bnd]]

/-- `_check_clarity_simplicity`'s `jargon_patterns`. -/
def jargonPatterns : List RE :=
  [RE.seq [.bnd, .cap (.strs ["utilize", "utilization"]), .bnd],
   RE.seq [.bnd, .cap (.strs ["facilitate", "facilitation"]), .bnd],
   RE.seq [.bnd, .cap (RE.str "leverage"), .bnd,
     .pla (RE.cat dotstar (RE.str "business"))],
   RE.seq [.bnd, .cap (.strs ["paradigm", "synergistic", "holistic"]), .bnd],
   RE.seq [.bnd, .cap (.strs ["optimal", "optimize", "optimization"]), .bnd],
   RE.seq [.bnd, .cap (.strs ["innovative solution", "best practices",
     "mission-critical"]), .bnd]]

/-- `\b(and|but|however|although|while|whereas)\b` (no `re.IGNORECASE`). -/
def clauseRe : RE :=
  RE.seq [.bnd, .cap (.strs ["and", "but", "however", "although", "while",
    "whereas"]), .bnd]

/-- `_check_clarity_simplicity`'s `formal_phrases` table (the last entry
keeps the source file's own characters, `vis-Ã&nbsp;-vis`). -/
def formalPhrases : List (String × String) :=
  [("in order to", "to"),
   ("with regard to", "about"),
   ("in the event that", "if"),
   ("for the purpose of", "to"),
   ("id est", "that is"),
   ("vis-Ã -vis", "compared to")]

/-- `_check_eliminate_clutter`'s `clutter_words`. -/
def clutterWords : List RE :=
  [RE.seq [.bnd, .cap (.strs ["very", "really", "quite", "rather", "somewhat",
     "pretty", "fairly", "relatively"]), .bnd],
   RE.seq [.bnd, .cap (.strs ["in a very real sense",
     "it is important to note that", "needless to say"]), .bnd],
   RE.seq [.bnd, .cap (.strs ["kind of", "sort of", "basically", "essentially",
     "literally", "actually", "totally"]), .bnd]]

/-- `_check_eliminate_clutter`'s `weak_adverbs`. -/
def weakAdverbs : List RE :=
  [RE.seq [.bnd, .cap (.strs ["slightly", "somewhat", "fairly", "rather",
     "quite"]), .lit ' ',
     .cap (.strs ["good", "bad", "nice", "important", "interesting"]), .bnd],
   RE.seq [.bnd, .cap (.strs ["very", "really", "extremely"]), .lit ' ',
     wplus, RE.str "ly", .bnd],
   RE.seq [.bnd, RE.str "totally", splus,
     .cap (.strs ["different", "wrong", "correct", "right"]), .bnd]]

/-- `_check_eliminate_clutter`'s `redundant_phrases`. -/
def redundantPhrases : List String :=
  ["advance warning", "true facts", "gather together", "plan ahead",
   "free gift", "new innovation"]

/-! ## The eleven checkers -/

/-- `Briefly._check_super_specific_how`. -/
def check_super_specific_how (text : String) : List String :=
  let issues := vaguePatterns.foldl (fun issues pattern =>
    match (reFindAll true pattern text).head? with
    | none => issues
    | some caps =>
      issues ++ ["Potential vague advice without specific implementation: '" ++
        pyGroupText caps ++ "'"]) []
  let has_specific_content :=
    specificIndicators.any fun pattern => reSearch true pattern text
  if !has_specific_content && wordCount text > 100 then
    issues ++
      ["Text lacks specific implementation details - consider adding 'how-to' elements"]
  else issues

/-- `Briefly._check_backstory`. -/
def check_backstory (text : String) : List String :=
  let sentences := pySplitDot text
  let first_third :=
    if sentences.length > 3 then sentences.take (sentences.length / 3)
    else sentences
  first_third.flatMap fun sentence =>
    if backstoryIndicators.any fun pattern => reSearch true pattern sentence then
      ["Potential backstory in opening: '" ++ pyStrip sentence ++ "'"]
    else []

/-- `Briefly._check_clear_recommendations`. -/
def check_clear_recommendations (text : String) : List String :=
  let issues := unclearPatterns.flatMap fun pattern =>
    if reSearch true pattern text then
      ["Potentially unclear recommendation - consider stating your position more directly"]
    else []
  if reSearch true prosConsRe text && !reSearch true recVerbRe text then
    issues ++
      ["Pros/cons list detected without clear recommendation - state your position upfront"]
  else issues

/-- Does one of `conclusion_indicators` match this sentence? -/
def blfHasMarker (sentence : String) : Bool :=
  conclusionIndicators.any fun pattern => reSearch true pattern sentence

/-- `Briefly._check_bottom_line_first`. -/
def check_bottom_line_first (text : String) : List String :=
  let sentences := pySplitDot text
  if sentences.length < 3 then []
  else
    let first_third := sentences.take (sentences.length / 3)
    let has_early_conclusion := first_third.any blfHasMarker
    if !has_early_conclusion then
      ["Main conclusion or recommendation may be buried - consider leading with the key takeaway"]
    else []

/-- `Briefly._check_adequate_context`. -/
def check_adequate_context (text : String) : List String :=
  let word_count := wordCount text
  if word_count > 200 then
    let has_context :=
      contextIndicators.any fun pattern => reSearch true pattern text
    if !has_context && word_count > 300 then
      ["Long text may lack sufficient context or examples for reader comprehension"]
    else []
  else []

/-- `[s.strip() for s in text.split('.') if s.strip()]`. -/
def strippedSentences (text : String) : List String :=
  ((pySplitDot text).map pyStrip).filter fun s => s ≠ ""

/-- `Briefly._check_sentence_structure`. -/
def check_sentence_structure (text : String) : List String :=
  (strippedSentences text).flatMap fun sentence =>
    (if (pyWords sentence).length > 30 then
      ["Very long sentence (" ++ toString (pyWords sentence).length ++
        " words): '" ++ pyTake 50 sentence ++ "...'"]
    else []) ++
    (if weakOpenings.any fun pattern => reMatchStart true pattern sentence then
      ["Consider stronger sentence opening: '" ++ pyTake 50 sentence ++ "...'"]
    else []) ++
    (if reSearch true pronounPairRe sentence &&
        reCount true pronounRe sentence > 2 then
      ["Multiple unclear pronoun references: '" ++ pyTake 50 sentence ++ "...'"]
    else [])

/-- `Briefly._check_active_voice`. -/
def check_active_voice (text : String) : List String :=
  (pySplitDot text).flatMap fun s =>
    let sentence := pyLower (pyStrip s)
    if passivePatterns.any fun pattern => reSearch false pattern sentence then
      ["Passive voice detected: '" ++ pyTake 60 sentence ++ "...'"]
    else []

/-- The paragraph loop of `_check_logical_flow`: stop at the first paragraph
whose first sentence is long yet lacks a topic-sentence marker. -/
def paraTopicIssue : Nat → List String → List String
  | _, [] => []
  | i, paragraph :: rest =>
    let sentences := strippedSentences paragraph
    if sentences.length > 1 then
      let first_sentence := sentences.headD ""
      let has_topic_sentence :=
        topicIndicators.any fun pattern => reSearch true pattern first_sentence
      if !has_topic_sentence && (pyWords first_sentence).length > 15 then
        ["Paragraph " ++ toString (i + 1) ++ " may lack a clear topic sentence"]
      else paraTopicIssue (i + 1) rest
    else paraTopicIssue (i + 1) rest

/-- `Briefly._check_logical_flow`. -/
def check_logical_flow (text : String) : List String :=
  let has_transitions :=
    transitionIndicators.any fun pattern => reSearch true pattern text
  let has_structure := reSearch true structureRe text
  let word_count := wordCount text
  let issues :=
    if word_count > 150 && !(has_transitions || has_structure) then
      ["Long text lacks clear logical structure - consider adding transitions or organizing in numbered points"]
    else []
  let paragraphs := ((pySplitPara text).map pyStrip).filter fun p => p ≠ ""
  issues ++ paraTopicIssue 0 paragraphs

/-- `Briefly._check_conciseness`. `filler_count > word_count * 0.02` is
modelled exactly as the rational comparison `100 * filler_count >
2 * word_count`, which agrees with the double-precision comparison at
every realistic word count. -/
def check_conciseness (text : String) : List String :=
  let issues := redundancies.flatMap fun pr =>
    if reSearch true (wordRe pr.1) text then
      ["Redundant phrase found - consider using '" ++ pr.2 ++ "' instead"]
    else []
  let filler_count :=
    fillerPatterns.foldl (fun n pattern => n + reCount true pattern text) 0
  let word_count := wordCount text
  if 100 * filler_count > 2 * word_count then
    issues ++ ["Excessive use of filler words (" ++ toString filler_count ++
      " instances) - consider removing some"]
  else issues

/-- The sentence loop of `_check_clarity_simplicity`: one issue for the
first sentence with more than two clause conjunctions and over 25 words. -/
def clauseComplexIssue : List String → List String
  | [] => []
  | sentence :: rest =>
    if reCount false clauseRe sentence > 2 && (pyWords sentence).length > 25 then
      ["Complex sentence structure - consider breaking into simpler sentences"]
    else clauseComplexIssue rest

/-- `Briefly._check_clarity_simplicity`. -/
def check_clarity_simplicity (text : String) : List String :=
  let issues := jargonPatterns.foldl (fun issues pattern =>
    match (reFindAll true pattern text).head? with
    | none => issues
    | some caps =>
      issues ++ ["Jargon detected - consider simpler alternatives: '" ++
        pyGroupText caps ++ "'"]) []
  let issues := issues ++ clauseComplexIssue (strippedSentences text)
  issues ++ formalPhrases.flatMap fun pr =>
    if reSearch true (wordRe pr.1) text then
      ["Formal phrase could be simplified: consider using '" ++ pr.2 ++ "'"]
    else []

/-- `Briefly._check_eliminate_clutter`. `clutter_count > word_count * 0.03`
is modelled exactly as `100 * clutter_count > 3 * word_count` (see
`check_conciseness`). -/
def check_eliminate_clutter (text : String) : List String :=
  let clutter_count :=
    clutterWords.foldl (fun n pattern => n + reCount true pattern text) 0
  let word_count := wordCount text
  let issues :=
    if 100 * clutter_count > 3 * word_count then
      ["High clutter word density (" ++ toString clutter_count ++
        " instances) - remove unnecessary qualifiers"]
    else []
  let issues :=
    if weakAdverbs.any fun pattern => reSearch true pattern text then
      issues ++ ["Weak adverb + adjective combination detected - strengthen the word itself"]
    else issues
  if redundantPhrases.any fun phrase => reSearch true (wordRe phrase) text then
    issues ++ ["Redundant phrase detected - remove unnecessary word"]
  else issues

/-! ## The eleven suggesters (fixed suggestion lists; the bullet characters
are the source file's own bytes) -/

/-- `Briefly._suggest_super_specific_how`. -/
def suggest_super_specific_how (_text : String) (_issues : List String) : List String :=
  ["â€¢ Add specific steps, examples, or concrete implementation details",
   "â€¢ Replace vague advice with actionable instructions (e.g., 'Here's how to...' instead of 'You should...')",
   "â€¢ Include time estimates, specific tools, or measurable outcomes"]

/-- `Briefly._suggest_cut_backstory`. -/
def suggest_cut_backstory (_text : String) (_issues : List String) : List String :=
  ["â€¢ Consider starting closer to the main point or key insight",
   "â€¢ Ask: 'Does this opening sentence directly serve my reader's immediate need?'",
   "â€¢ Try starting with the insight or recommendation, then provide minimal necessary context"]

/-- `Briefly._suggest_clear_recommendations`. -/
def suggest_clear_recommendations (_text : String) (_issues : List String) : List String :=
  ["â€¢ State your recommendation upfront (e.g., 'I recommend X because...')",
   "â€¢ If presenting options, clearly indicate which you prefer and why",
   "â€¢ Replace hedging language with confident statements where appropriate"]

/-- `Briefly._suggest_bottom_line_first`. -/
def suggest_bottom_line_first (_text : String) (_issues : List String) : List String :=
  ["â€¢ Start with: 'Bottom line: [your main point]'",
   "â€¢ Or begin with: 'I recommend [action] because [key reason]'",
   "â€¢ Move supporting details and context after the main point"]

/-- `Briefly._suggest_adequate_context`. -/
def suggest_adequate_context (_text : String) (_issues : List String) : List String :=
  ["â€¢ Add context if readers might need more background to understand",
   "â€¢ Use examples, analogies, or case studies to illustrate key points",
   "â€¢ Consider adding 'Context:' or 'Background:' sections for complex topics"]

/-- `Briefly._suggest_sentence_structure`. -/
def suggest_sentence_structure (_text : String) (_issues : List String) : List String :=
  ["â€¢ Break sentences longer than 25-30 words into shorter, clearer sentences",
   "â€¢ Start sentences with strong subjects and active verbs when possible",
   "â€¢ Avoid starting with 'There is/are' - use more direct constructions",
   "â€¢ Make pronoun references clear and specific"]

/-- `Briefly._suggest_active_voice`. -/
def suggest_active_voice (_text : String) (_issues : List String) : List String :=
  ["â€¢ Rewrite passive voice to active voice for stronger, clearer writing",
   "â€¢ Put the doer of the action before the verb when possible",
   "â€¢ Example: 'The report was written by John' â†’ 'John wrote the report'"]

/-- `Briefly._suggest_logical_flow`. -/
def suggest_logical_flow (_text : String) (_issues : List String) : List String :=
  ["â€¢ Use transition words to guide readers through your argument",
   "â€¢ Start each paragraph with a clear topic sentence",
   "â€¢ Organize ideas in logical order: most important first, supporting details second",
   "â€¢ Consider using numbered lists or bullet points for clarity"]

/-- `Briefly._suggest_conciseness`. -/
def suggest_conciseness (_text : String) (_issues : List String) : List String :=
  ["â€¢ Remove redundant phrases and unnecessary words",
   "â€¢ Replace wordy constructions with shorter alternatives",
   "â€¢ Avoid filler words like 'very', 'really', 'quite' when possible",
   "â€¢ Example: 'in order to' â†’ 'to', 'due to the fact that' â†’ 'because'"]

/-- `Briefly._suggest_clarity_simplicity`. -/
def suggest_clarity_simplicity (_text : String) (_issues : List String) : List String :=
  ["â€¢ Replace jargon with simple, clear words",
   "â€¢ Use 'use' instead of 'utilize', 'help' instead of 'facilitate'",
   "â€¢ Break complex sentences into shorter, clearer ones",
   "â€¢ Avoid unnecessarily formal language - write as you speak",
   "â€¢ Example: 'utilize' â†’ 'use', 'facilitate' â†’ 'help', 'leverage' â†’ 'use'"]

/-- `Briefly._suggest_eliminate_clutter`. -/
def suggest_eliminate_clutter (_text : String) (_issues : List String) : List String :=
  ["â€¢ Remove clutter words: 'very', 'really', 'quite', 'rather', 'somewhat'",
   "â€¢ Strengthen weak words instead of adding qualifiers",
   "â€¢ Eliminate redundant phrases like 'advance warning' or 'new innovation'",
   "â€¢ Example: 'very good' â†’ 'excellent', 'really important' â†’ 'crucial'",
   "â€¢ Zinsser's rule: Every word must earn its place"]

/-! ## Registry, report and the analysis engine -/

/-- One registry entry: description, checker and suggester (the
`self.rules[name]` dict of `Briefly.__init__`). -/
structure Rule where
  description : String
  check : String → List String
  suggest : String → List String → List String

/-- The per-rule entry of the report's `analysis` dict. -/
structure RuleResult where
  passed : Bool
  issues : List String
  description : String
deriving Repr, DecidableEq

/-- The dict `analyze_text` returns. `analysis` is an insertion-ordered
association list, as a Python dict is. -/
structure Report where
  original_text : String
  analysis : List (String × RuleResult)
  suggestions : List String
  improved_text : String
deriving Repr, DecidableEq

/-- `Briefly.__init__`: the rule registry, in insertion order. -/
def rules : List (String × Rule) :=
  [("super_specific_how",
    ⟨"Focus on actionable 'how' rather than 'what' and 'why'",
     check_super_specific_how, suggest_super_specific_how⟩),
   ("cut_backstory",
    ⟨"Start right before you get eaten by the bear - cut unnecessary backstory",
     check_backstory, suggest_cut_backstory⟩),
   ("clear_recommendations",
    ⟨"Avoid communication surprises - be clear about your point of view",
     check_clear_recommendations, suggest_clear_recommendations⟩),
   ("bottom_line_first",
    ⟨"Lead with conclusions, then provide context (Minto Pyramid Principle)",
     check_bottom_line_first, suggest_bottom_line_first⟩),
   ("adequate_context",
    ⟨"Over-communicate - ensure sufficient context without overwhelming",
     check_adequate_context, suggest_adequate_context⟩),
   ("sentence_structure",
    ⟨"Use clear, concise sentences with proper structure (Casagrande principles)",
     check_sentence_structure, suggest_sentence_structure⟩),
   ("active_voice",
    ⟨"Prefer active voice over passive voice for clarity and directness",
     check_active_voice, suggest_active_voice⟩),
   ("logical_flow",
    ⟨"Structure arguments logically with clear hierarchy (Minto Pyramid)",
     check_logical_flow, suggest_logical_flow⟩),
   ("conciseness",
    ⟨"Eliminate unnecessary words and redundant phrases",
     check_conciseness, suggest_conciseness⟩),
   ("clarity_simplicity",
    ⟨"Write clearly and simply - avoid jargon and complex constructions (Zinsser)",
     check_clarity_simplicity, suggest_clarity_simplicity⟩),
   ("eliminate_clutter",
    ⟨"Remove unnecessary words, adverbs, and complexity (Zinsser principles)",
     check_eliminate_clutter, suggest_eliminate_clutter⟩)]

/-- The `RuleResult` the engine stores for one rule on one text. -/
def mkRuleResult (text : String) (rule : Rule) : RuleResult :=
  let issues := rule.check text
  { passed := issues.isEmpty, issues := issues, description := rule.description }

/-- The loop body of `Briefly.analyze_text`: record the rule's result; when
the checker found issues, extend the global suggestion list. -/
def analyzeStep (text : String) (results : Report) (nr : String × Rule) : Report :=
  let issues := nr.2.check text
  { results with
    analysis := results.analysis ++
      [(nr.1, { passed := issues.isEmpty, issues := issues,
                description := nr.2.description })]
    suggestions := results.suggestions ++
      (if issues.isEmpty then [] else nr.2.suggest text issues) }

/-- `Briefly.analyze_text`. -/
def analyze_text (text : String) : Report :=
  rules.foldl (analyzeStep text)
    { original_text := text, analysis := [], suggestions := [],
      improved_text := text }

/-! ## `generate_improved_text` and its two repairs -/

/-- The sentence list `_apply_bottom_line_first` operates on:
`[s.strip() for s in text.split('.') if s.strip()]`. -/
def blfSentences (text : String) : List String :=
  strippedSentences text

/-- `_apply_bottom_line_first`'s `conclusion_patterns`. -/
def applyConclusionPatterns : List RE :=
  [RE.seq [.bnd, .cap (.strs ["recommend", "suggest", "conclude", "believe",
     "think"])],
   RE.seq [.bnd, .cap (.strs ["summary", "bottom line", "point is"])]]

/-- Does a sentence match one of `_apply_bottom_line_first`'s conclusion
patterns? -/
def applyHasConclusion (sentence : String) : Bool :=
  applyConclusionPatterns.any fun pattern => reSearch true pattern sentence

/-- The index the loop of `_apply_bottom_line_first` pops: the first
matching sentence whose index is greater than 1 (a match at index 0 or 1
does not break the loop). -/
def conclusionMoveIdx (sentences : List String) : Option Nat :=
  (sentences.enum.find? fun p => decide (p.1 > 1) && applyHasConclusion p.2).map
    Prod.fst

/-- `Briefly._apply_bottom_line_first`. -/
def apply_bottom_line_first (text : String) : String :=
  let sentences := blfSentences text
  let sentences :=
    if sentences.length > 2 then
      match conclusionMoveIdx sentences with
      | some i =>
        let conclusion := sentences.getD i ""
        (sentences.eraseIdx i).insertIdx 1 conclusion
      | none => sentences
    else sentences
  String.intercalate ". " sentences ++ (if pyEndsWithDot text then "." else "")

/-- `Briefly._apply_clear_recommendations`. -/
def apply_clear_recommendations (text : String) : String :=
  if !reSearch true (RE.seq [.bnd, .cap (.strs ["recommend", "suggest",
      "believe", "think we should"]), .bnd]) text then
    if reSearch true prosConsRe text then "Recommendation: " ++ text else text
  else text

/-- The loop body of `Briefly.generate_improved_text`. -/
def improveStep (text : String) (entry : String × RuleResult) : String :=
  if !entry.2.passed && !entry.2.issues.isEmpty then
    if entry.1 = "bottom_line_first" then apply_bottom_line_first text
    else if entry.1 = "clear_recommendations" then apply_clear_recommendations text
    else text
  else text

/-- `Briefly.generate_improved_text`. -/
def generate_improved_text (analysis : Report) : String :=
  analysis.analysis.foldl improveStep analysis.original_text

/-! ## Exception-aware checker variants

Three checkers contain a Python list subscript (`matches[0]` twice,
`sentences[0]` once). Each is guarded, so it can never raise; to prove
that, these variants model every subscript as a fallible `Option` lookup
(`none` would be an uncaught `IndexError`), keeping the source's guards.
The totality claim is that each variant returns `some` of the direct
embedding's result for every input. -/

/-- `_check_super_specific_how` with `matches[0]` as a fallible lookup. -/
def check_super_specific_how_chk (text : String) : Option (List String) := do
  let issues ← vaguePatterns.foldlM (fun issues pattern => do
    let matchList := reFindAll true pattern text
    if !matchList.isEmpty then
      let m ← matchList.get? 0
      pure (issues ++ ["Potential vague advice without specific implementation: '" ++
        pyGroupText m ++ "'"])
    else pure issues) []
  let has_specific_content :=
    specificIndicators.any fun pattern => reSearch true pattern text
  if !has_specific_content && wordCount text > 100 then
    pure (issues ++
      ["Text lacks specific implementation details - consider adding 'how-to' elements"])
  else pure issues

/-- The paragraph loop of `_check_logical_flow` with `sentences[0]` as a
fallible lookup. -/
def paraTopicIssue_chk : Nat → List String → Option (List String)
  | _, [] => some []
  | i, paragraph :: rest =>
    let sentences := strippedSentences paragraph
    if sentences.length > 1 then do
      let first_sentence ← sentences.get? 0
      let has_topic_sentence :=
        topicIndicators.any fun pattern => reSearch true pattern first_sentence
      if !has_topic_sentence && (pyWords first_sentence).length > 15 then
        pure ["Paragraph " ++ toString (i + 1) ++ " may lack a clear topic sentence"]
      else paraTopicIssue_chk (i + 1) rest
    else paraTopicIssue_chk (i + 1) rest

/-- `_check_logical_flow` with its paragraph subscript fallible. -/
def check_logical_flow_chk (text : String) : Option (List String) := do
  let has_transitions :=
    transitionIndicators.any fun pattern => reSearch true pattern text
  let has_structure := reSearch true structureRe text
  let word_count := wordCount text
  let issues :=
    if word_count > 150 && !(has_transitions || has_structure) then
      ["Long text lacks clear logical structure - consider adding transitions or organizing in numbered points"]
    else []
  let paragraphs := ((pySplitPara text).map pyStrip).filter fun p => p ≠ ""
  let ptail ← paraTopicIssue_chk 0 paragraphs
  pure (issues ++ ptail)

/-- `_check_clarity_simplicity` with `matches[0]` as a fallible lookup. -/
def check_clarity_simplicity_chk (text : String) : Option (List String) := do
  let issues ← jargonPatterns.foldlM (fun issues pattern => do
    let matchList := reFindAll true pattern text
    if !matchList.isEmpty then
      let m ← matchList.get? 0
      pure (issues ++ ["Jargon detected - consider simpler alternatives: '" ++
        pyGroupText m ++ "'"])
    else pure issues) []
  let issues := issues ++ clauseComplexIssue (strippedSentences text)
  pure (issues ++ formalPhrases.flatMap fun pr =>
    if reSearch true (wordRe pr.1) text then
      ["Formal phrase could be simplified: consider using '" ++ pr.2 ++ "'"]
    else [])

/-- A registry entry with a fallible checker. -/
structure RuleChk where
  description : String
  check : String → Option (List String)
  suggest : String → List String → List String

/-- The registry with the three subscripting checkers replaced by their
exception-aware variants (the other eight checkers contain no fallible
operation and are lifted by `some`). -/
def rules_chk : List (String × RuleChk) :=
  [("super_specific_how",
    ⟨"Focus on actionable 'how' rather than 'what' and 'why'",
     check_super_specific_how_chk, suggest_super_specific_how⟩),
   ("cut_backstory",
    ⟨"Start right before you get eaten by the bear - cut unnecessary backstory",
     fun text => some (check_backstory text), suggest_cut_backstory⟩),
   ("clear_recommendations",
    ⟨"Avoid communication surprises - be clear about your point of view",
     fun text => some (check_clear_recommendations text),
     suggest_clear_recommendations⟩),
   ("bottom_line_first",
    ⟨"Lead with conclusions, then provide context (Minto Pyramid Principle)",
     fun text => some (check_bottom_line_first text), suggest_bottom_line_first⟩),
   ("adequate_context",
    ⟨"Over-communicate - ensure sufficient context without overwhelming",
     fun text => some (check_adequate_context text), suggest_adequate_context⟩),
   ("sentence_structure",
    ⟨"Use clear, concise sentences with proper structure (Casagrande principles)",
     fun text => some (check_sentence_structure text), suggest_sentence_structure⟩),
   ("active_voice",
    ⟨"Prefer active voice over passive voice for clarity and directness",
     fun text => some (check_active_voice text), suggest_active_voice⟩),
   ("logical_flow",
    ⟨"Structure arguments logically with clear hierarchy (Minto Pyramid)",
     check_logical_flow_chk, suggest_logical_flow⟩),
   ("conciseness",
    ⟨"Eliminate unnecessary words and redundant phrases",
     fun text => some (check_conciseness text), suggest_conciseness⟩),
   ("clarity_simplicity",
    ⟨"Write clearly and simply - avoid jargon and complex constructions (Zinsser)",
     check_clarity_simplicity_chk, suggest_clarity_simplicity⟩),
   ("eliminate_clutter",
    ⟨"Remove unnecessary words, adverbs, and complexity (Zinsser principles)",
     fun text => some (check_eliminate_clutter text), suggest_eliminate_clutter⟩)]

/-- The loop body of `analyze_text` over a fallible checker. -/
def analyzeStep_chk (text : String) (results : Report) (nr : String × RuleChk) :
    Option Report := do
  let issues ← nr.2.check text
  pure { results with
    analysis := results.analysis ++
      [(nr.1, { passed := issues.isEmpty, issues := issues,
                description := nr.2.description })]
    suggestions := results.suggestions ++
      (if issues.isEmpty then [] else nr.2.suggest text issues) }

/-- `analyze_text` over the exception-aware registry: `none` would mean an
exception escaping some checker. -/
def analyze_text_chk (text : String) : Option Report :=
  rules_chk.foldlM (analyzeStep_chk text)
    { original_text := text, analysis := [], suggestions := [],
      improved_text := text }

/-! ## Concrete inputs used by the claims -/

/-- Three sentences, conclusion marker only in the third (the spec's
bottom-line scenario). -/
def scenarioText : String :=
  "The project started in March. The team met often. I recommend we proceed."

/-- A text whose bottom-line repair changes it: three sentences with the
conclusion marker last. -/
def buriedText : String :=
  "The metrics fell in April. The churn rose sharply. In summary we must act now."

/-- Exactly 100 words of generic prose: no vague-pattern match, no
specific-content marker. -/
def generic100 : String :=
  String.intercalate " " (List.replicate 100 "word")

/-- The same prose at 101 words. -/
def generic101 : String :=
  String.intercalate " " (List.replicate 101 "word")

/-! ## Structural lemmas about the analysis loop -/

/-- Unrolling `analyze_text`'s loop: each rule appends its analysis entry,
and its suggestions exactly when its checker found issues. -/
theorem analyze_foldl (text : String) (l : List (String × Rule)) (acc : Report) :
    l.foldl (analyzeStep text) acc =
      { acc with
        analysis := acc.analysis ++ (l.map fun nr => (nr.1, mkRuleResult text nr.2)),
        suggestions := acc.suggestions ++ (l.flatMap fun nr =>
          if (nr.2.check text).isEmpty then []
          else nr.2.suggest text (nr.2.check text)) } := by
  induction l generalizing acc with
  | nil => simp
  | cons hd tl ih =>
    rw [List.foldl_cons, ih]
    simp [analyzeStep, mkRuleResult]

/-- The analysis entries are the registry's rules evaluated on the text. -/
theorem analyze_text_analysis (t : String) :
    (analyze_text t).analysis = rules.map fun nr => (nr.1, mkRuleResult t nr.2) := by
  simp [analyze_text, analyze_foldl]

/-- The suggestion list, rule by rule. -/
theorem analyze_text_suggestions (t : String) :
    (analyze_text t).suggestions = rules.flatMap fun nr =>
      if (nr.2.check t).isEmpty then [] else nr.2.suggest t (nr.2.check t) := by
  simp [analyze_text, analyze_foldl]

/-- The report keeps the input as `original_text`. -/
theorem analyze_text_original (t : String) :
    (analyze_text t).original_text = t := by
  simp [analyze_text, analyze_foldl]

/-- C1 (amended): `analyze` never applies the section 4.2 repairs: the
`improved_text` field of every report equals the original input text
(the transformed text is only produced by the separate
`generate_improved_text`). -/
theorem claim_C1_improved_text_is_input (t : String) :
    (analyze_text t).improved_text = t := by
  simp [analyze_text, analyze_foldl]

/-- C2: in every report, each rule's `passed` flag holds exactly when its
`issues` list is empty. -/
theorem claim_C2_passed_iff_issues_empty (t n : String) (rr : RuleResult)
    (h : (n, rr) ∈ (analyze_text t).analysis) :
    rr.passed = true ↔ rr.issues = [] := by
  rw [analyze_text_analysis] at h
  obtain ⟨nr, -, heq⟩ := List.mem_map.1 h
  obtain ⟨-, h2⟩ := Prod.mk.inj heq
  rw [← h2]
  simp [mkRuleResult, List.isEmpty_iff]

/-- All suggester output of failing rules, in registry order. -/
theorem flatMap_if_filter (t : String) (l : List (String × Rule)) :
    (l.flatMap fun nr =>
      if (nr.2.check t).isEmpty then [] else nr.2.suggest t (nr.2.check t)) =
      ((l.filter fun nr => !(mkRuleResult t nr.2).passed).map fun nr =>
        nr.2.suggest t (nr.2.check t)).flatten := by
  induction l with
  | nil => simp
  | cons hd tl ih =>
    rw [List.flatMap_cons, List.filter_cons]
    by_cases h : hd.2.check t = []
    · simp only [mkRuleResult, h, List.isEmpty_nil, if_true, Bool.not_true,
        List.nil_append, Bool.false_eq_true, if_false, ih]
    · rw [if_neg (by simpa using h), if_pos (by simp [mkRuleResult, h]),
        List.map_cons, List.flatten_cons, ih]

/-- C3: the report's suggestion list is the concatenation, in registry
order, of the suggester outputs of exactly the rules whose `passed` is
false, and its length is the sum of those outputs' lengths. -/
theorem claim_C3_suggestions_from_failing (t : String) :
    (analyze_text t).suggestions =
      ((rules.filter fun nr => !(mkRuleResult t nr.2).passed).map fun nr =>
        nr.2.suggest t (nr.2.check t)).flatten ∧
    (analyze_text t).suggestions.length =
      (((rules.filter fun nr => !(mkRuleResult t nr.2).passed).map fun nr =>
        nr.2.suggest t (nr.2.check t)).map List.length).sum := by
  refine ⟨?_, ?_⟩
  · rw [analyze_text_suggestions, flatMap_if_filter]
  · rw [analyze_text_suggestions, flatMap_if_filter, List.length_flatten]

/-- C10: every report carries the input text unchanged as `original_text`,
and its analysis keys are exactly the eleven registered rule names in
registry insertion order. -/
theorem claim_C10_report_keys (t : String) :
    (analyze_text t).original_text = t ∧
    (analyze_text t).analysis.map Prod.fst =
      ["super_specific_how", "cut_backstory", "clear_recommendations",
       "bottom_line_first", "adequate_context", "sentence_structure",
       "active_voice", "logical_flow", "conciseness", "clarity_simplicity",
       "eliminate_clutter"] := by
  refine ⟨analyze_text_original t, ?_⟩
  rw [analyze_text_analysis, List.map_map]
  rfl

/-- When every rule passed, the improvement fold changes nothing. -/
theorem improve_foldl_passed (l : List (String × RuleResult)) (text : String)
    (h : ∀ p ∈ l, p.2.passed = true) : l.foldl improveStep text = text := by
  induction l generalizing text with
  | nil => rfl
  | cons hd tl ih =>
    have hhd := h hd (List.mem_cons_self ..)
    rw [List.foldl_cons, show improveStep text hd = text by simp [improveStep, hhd]]
    exact ih text fun p hp => h p (List.mem_cons_of_mem _ hp)

/-- C5: applied to a report whose every rule passed,
`generate_improved_text` returns the original text unchanged. -/
theorem claim_C5_roundtrip (t : String)
    (h : ∀ p ∈ (analyze_text t).analysis, p.2.passed = true) :
    generate_improved_text (analyze_text t) = t := by
  rw [generate_improved_text, improve_foldl_passed _ _ h, analyze_text_original]

/-- Witness for C5: the empty string passes every rule, and the improver
returns it unchanged. -/
theorem claim_C5_witness :
    (∀ p ∈ (analyze_text "").analysis, p.2.passed = true) ∧
      generate_improved_text (analyze_text "") = "" :=
  ⟨by decide, claim_C5_roundtrip "" (by decide)⟩

/-- Witness for C2: a concrete analysis entry of the empty-string report,
with its `passed`/`issues` equivalence. -/
theorem claim_C2_witness :
    ("super_specific_how",
      ({ passed := true, issues := [],
         description := "Focus on actionable 'how' rather than 'what' and 'why'" } :
        RuleResult)) ∈ (analyze_text "").analysis ∧
    (({ passed := true, issues := [],
        description := "Focus on actionable 'how' rather than 'what' and 'why'" } :
        RuleResult).passed = true ↔
      ({ passed := true, issues := [],
         description := "Focus on actionable 'how' rather than 'what' and 'why'" } :
        RuleResult).issues = []) :=
  ⟨by decide,
    claim_C2_passed_iff_issues_empty "" "super_specific_how"
      { passed := true, issues := [],
        description := "Focus on actionable 'how' rather than 'what' and 'why'" }
      (by decide)⟩

/-- C1 counterexample: on a concrete input whose bottom-line repair changes
the text, the report's `improved_text` differs from the section 4.2
transformed text (the value `generate_improved_text` computes), refuting
the claim that `analyze` returns the transformed text in that field. -/
theorem claim_C1_counterexample :
    (analyze_text buriedText).improved_text ≠
      generate_improved_text (analyze_text buriedText) := by decide

/-- C6 (amended): with fewer than three stripped, non-empty sentences the
repair moves no sentence; it returns the sentences rejoined with a period
and space (restoring a trailing period when the input ended with one), so
an input already in that rejoined normal form comes back unchanged. -/
theorem claim_C6_short_text_no_move (t : String)
    (h : (blfSentences t).length < 3) :
    apply_bottom_line_first t =
      String.intercalate ". " (blfSentences t) ++
        (if pyEndsWithDot t then "." else "") ∧
    (t = String.intercalate ". " (blfSentences t) ++
        (if pyEndsWithDot t then "." else "") →
      apply_bottom_line_first t = t) := by
  have h1 : apply_bottom_line_first t =
      String.intercalate ". " (blfSentences t) ++
        (if pyEndsWithDot t then "." else "") := by
    simp only [apply_bottom_line_first]
    rw [if_neg (show ¬ (blfSentences t).length > 2 by omega)]
  exact ⟨h1, fun ht => h1.trans ht.symm⟩

/-- C6 counterexample: a one-sentence input with leading whitespace is
changed by the repair although its sentence-count guard declines to move
anything, refuting the claim that the repair returns such inputs
unchanged. -/
theorem claim_C6_counterexample :
    (blfSentences " Hi").length < 3 ∧
      apply_bottom_line_first " Hi" ≠ " Hi" := by decide

/-- Witness for C6: a two-sentence input already in normal form is
returned unchanged. -/
theorem claim_C6_witness :
    (blfSentences "Hello. World.").length < 3 ∧
      apply_bottom_line_first "Hello. World." = "Hello. World." :=
  ⟨by decide, (claim_C6_short_text_no_move "Hello. World." (by decide)).2 (by decide)⟩

set_option maxRecDepth 10000

/-- C7 counterexample: at exactly 100 generic words (no vague-pattern
match, no specific-content marker) the checker reports nothing, because
its word-count threshold is strictly greater than 100. -/
theorem claim_C7_counterexample :
    wordCount generic100 = 100 ∧
      check_super_specific_how generic100 = [] := by decide

/-- C7 (amended): the missing-specifics issue fires at 101 generic words
and is suppressed at exactly 100 (the threshold is strictly over 100
words). -/
theorem claim_C7_threshold :
    wordCount generic101 = 101 ∧
    check_super_specific_how generic101 =
      ["Text lacks specific implementation details - consider adding 'how-to' elements"] ∧
    check_super_specific_how generic100 = [] := by decide

/-- C8 counterexample: a one-part input whose (empty) first third contains
no conclusion marker, yet the checker reports no issue at all: the issue is
not reported regardless of length. -/
theorem claim_C8_counterexample :
    (pySplitDot "Hello").length = 1 ∧
    ((pySplitDot "Hello").take ((pySplitDot "Hello").length / 3)).any
      blfHasMarker = false ∧
    check_bottom_line_first "Hello" = [] := by decide

/-- C8 (amended): the checker never reports more than one issue; and for
every text with at least three period-split parts whose first third has no
conclusion marker it reports exactly the single buried-conclusion issue. -/
theorem claim_C8_single_issue :
    (∀ t : String, (check_bottom_line_first t).length ≤ 1) ∧
    (∀ t : String, 3 ≤ (pySplitDot t).length →
      ((pySplitDot t).take ((pySplitDot t).length / 3)).any blfHasMarker = false →
      check_bottom_line_first t =
        ["Main conclusion or recommendation may be buried - consider leading with the key takeaway"]) := by
  constructor
  · intro t
    simp only [check_bottom_line_first]
    split
    · simp
    · split <;> simp
  · intro t h3 hnm
    simp only [check_bottom_line_first]
    rw [if_neg (show ¬ (pySplitDot t).length < 3 by omega)]
    simp [hnm]

/-- Witness for C8: a concrete three-sentence text with no early
conclusion marker gets exactly the one issue. -/
theorem claim_C8_witness :
    3 ≤ (pySplitDot "Alpha beta. Gamma delta. Epsilon zeta.").length ∧
    check_bottom_line_first "Alpha beta. Gamma delta. Epsilon zeta." =
      ["Main conclusion or recommendation may be buried - consider leading with the key takeaway"] :=
  ⟨by decide,
    claim_C8_single_issue.2 "Alpha beta. Gamma delta. Epsilon zeta."
      (by decide) (by decide)⟩

/-- C9: the bottom-line scenario: three sentences whose conclusion marker
sits only in the third; the checker reports the buried-conclusion issue
and `generate_improved_text` moves that sentence to index 1 (the second
sentence). -/
theorem claim_C9_scenario :
    ((pySplitDot scenarioText).take 2).any blfHasMarker = false ∧
    (blfSentences scenarioText).getD 2 "" = "I recommend we proceed" ∧
    check_bottom_line_first scenarioText =
      ["Main conclusion or recommendation may be buried - consider leading with the key takeaway"] ∧
    generate_improved_text (analyze_text scenarioText) =
      "The project started in March. I recommend we proceed. The team met often." ∧
    (blfSentences (generate_improved_text (analyze_text scenarioText))).getD 1 "" =
      "I recommend we proceed" := by decide

/-! ## Totality of the exception-aware analysis (claim C4) -/

/-- Lifting a never-failing step out of the `Option` fold. -/
theorem foldlM_option_eq {α β : Type} (f : β → α → β) (g : β → α → Option β)
    (hfg : ∀ b a, g b a = some (f b a)) (l : List α) (init : β) :
    l.foldlM g init = some (l.foldl f init) := by
  induction l generalizing init with
  | nil => rfl
  | cons a l ih =>
    rw [List.foldlM_cons, hfg, List.foldl_cons]
    exact ih (f init a)

/-- The guarded `matches[0]` of `_check_super_specific_how` never fails. -/
theorem ssh_chk_eq (t : String) :
    check_super_specific_how_chk t = some (check_super_specific_how t) := by
  have hfold := foldlM_option_eq
    (fun issues pattern =>
      match (reFindAll true pattern t).head? with
      | none => issues
      | some caps =>
        issues ++ ["Potential vague advice without specific implementation: '" ++
          pyGroupText caps ++ "'"])
    (fun issues pattern => do
      let matchList := reFindAll true pattern t
      if !matchList.isEmpty then do
        let m ← matchList.get? 0
        pure (issues ++ ["Potential vague advice without specific implementation: '" ++
          pyGroupText m ++ "'"])
      else pure issues)
    (fun b a => by cases h : reFindAll true a t <;> simp [h])
    vaguePatterns []
  rw [check_super_specific_how_chk, check_super_specific_how, hfold]
  simp only [Option.bind_eq_bind, Option.some_bind]
  split <;> rfl

/-- The guarded `matches[0]` of `_check_clarity_simplicity` never fails. -/
theorem cs_chk_eq (t : String) :
    check_clarity_simplicity_chk t = some (check_clarity_simplicity t) := by
  have hfold := foldlM_option_eq
    (fun issues pattern =>
      match (reFindAll true pattern t).head? with
      | none => issues
      | some caps =>
        issues ++ ["Jargon detected - consider simpler alternatives: '" ++
          pyGroupText caps ++ "'"])
    (fun issues pattern => do
      let matchList := reFindAll true pattern t
      if !matchList.isEmpty then do
        let m ← matchList.get? 0
        pure (issues ++ ["Jargon detected - consider simpler alternatives: '" ++
          pyGroupText m ++ "'"])
      else pure issues)
    (fun b a => by cases h : reFindAll true a t <;> simp [h])
    jargonPatterns []
  rw [check_clarity_simplicity_chk, check_clarity_simplicity, hfold]
  rfl

/-- The guarded `sentences[0]` of the paragraph loop never fails. -/
theorem paraTopic_chk_eq (l : List String) : ∀ i,
    paraTopicIssue_chk i l = some (paraTopicIssue i l) := by
  induction l with
  | nil => intro i; rfl
  | cons p rest ih =>
    intro i
    rw [paraTopicIssue_chk, paraTopicIssue]
    cases hs : strippedSentences p with
    | nil => simp [hs, ih]
    | cons x xs =>
      simp [hs, ih]
      split
      · split <;> rfl
      · rfl

/-- `_check_logical_flow` never fails. -/
theorem lf_chk_eq (t : String) :
    check_logical_flow_chk t = some (check_logical_flow t) := by
  simp only [check_logical_flow_chk, check_logical_flow]
  rw [paraTopic_chk_eq]
  rfl

/-- The whole exception-aware analysis never fails. -/
theorem analyze_chk_eq (t : String) :
    analyze_text_chk t = some (analyze_text t) := by
  simp only [analyze_text_chk, analyze_text, rules_chk, rules,
    List.foldlM_cons, List.foldlM_nil, List.foldl_cons, List.foldl_nil,
    analyzeStep_chk, analyzeStep, ssh_chk_eq, lf_chk_eq, cs_chk_eq,
    Option.bind_eq_bind, Option.some_bind]
  rfl

/-- C4: no checker raises on any input: every exception-aware checker
variant (each Python subscript modelled as a fallible lookup) returns
`some` of the direct embedding's result, and the exception-aware analysis
always succeeds, so `analyze` is a total function returning a report for
every input string. -/
theorem claim_C4_checkers_total (t : String) :
    check_super_specific_how_chk t = some (check_super_specific_how t) ∧
    check_logical_flow_chk t = some (check_logical_flow t) ∧
    check_clarity_simplicity_chk t = some (check_clarity_simplicity t) ∧
    analyze_text_chk t = some (analyze_text t) :=
  ⟨ssh_chk_eq t, lf_chk_eq t, cs_chk_eq t, analyze_chk_eq t⟩

end Briefly
